import Mathlib

/-!
Verification of the real-time control and suppression pipeline of the
semantic noise-suppression application.

The Python sources are shallowly embedded: every stateful class becomes a
structure together with pure functions that take the state (and, where the
source reads the wall clock, an explicit time argument) and return the new
state with the result.  Machine floats are modelled as rationals; Python
dicts keyed by bus/category names are modelled as association lists
(first-occurrence lookup, in-place update, append on fresh key), matching
insertion-ordered Python dicts whose keys are unique.
-/

set_option autoImplicit false

namespace SemanticMixer

/-- Lookup of a key in an association list (first occurrence), mirroring
Python `dict[key]` / `dict.get(key)`. -/
def dictGet (k : String) : List (String × ℚ) → Option ℚ
  | [] => none
  | (k2, v) :: rest => if k2 = k then some v else dictGet k rest

/-- Update of a key in an association list: the first occurrence keeps its
position (Python dicts preserve insertion order on assignment), a fresh key
is appended at the end. -/
def dictSet (k : String) (v : ℚ) : List (String × ℚ) → List (String × ℚ)
  | [] => [(k, v)]
  | (k2, w) :: rest => if k2 = k then (k2, v) :: rest else (k2, w) :: dictSet k v rest

@[simp] theorem dictGet_dictSet_self (k : String) (v : ℚ) (d : List (String × ℚ)) :
    dictGet k (dictSet k v d) = some v := by
  induction d with
  | nil => simp [dictGet, dictSet]
  | cons hd tl ih =>
      by_cases h : hd.1 = k
      · simp [dictGet, dictSet, h]
      · simp [dictGet, dictSet, h, ih]

theorem dictGet_dictSet_ne (k k2 : String) (v : ℚ) (d : List (String × ℚ))
    (h : k ≠ k2) : dictGet k2 (dictSet k v d) = dictGet k2 d := by
  induction d with
  | nil => simp [dictGet, dictSet, h]
  | cons hd tl ih =>
      by_cases h2 : hd.1 = k
      · have h3 : ¬ hd.1 = k2 := by rw [h2]; exact h
        simp [dictGet, dictSet, h2, h3, h]
      · simp [dictGet, dictSet, h2, ih]

/-! ## AdaptiveDutyCycle (training/models/semantic_detective.py) -/

/-- `AdaptiveDutyCycle.__init__` fields: interval lengths in seconds. -/
structure AdaptiveDutyCycle where
  normal : ℚ
  saving : ℚ
  critical : ℚ

/-- Default construction `AdaptiveDutyCycle()` (normal 3.0, saving 8.0,
critical 15.0). -/
def AdaptiveDutyCycle.default : AdaptiveDutyCycle := ⟨3, 8, 15⟩

/-- `AdaptiveDutyCycle.get_interval`: `battery_percent > 50` gives `normal`,
else `battery_percent > 20` gives `saving`, else `critical`. -/
def AdaptiveDutyCycle.get_interval (c : AdaptiveDutyCycle) (battery_percent : ℤ) : ℚ :=
  if 50 < battery_percent then c.normal
  else if 20 < battery_percent then c.saving
  else c.critical

/-! ## RingBuffer (desktop/src/audio/ring_buffer.py) -/

/-- `RingBuffer`: a `deque` with `maxlen = capacity`; the list front is the
oldest sample. -/
structure RingBuffer where
  capacity : ℕ
  buffer : List ℚ

/-- `RingBuffer.write`: extend on the right; the `deque(maxlen=capacity)`
drops the oldest (leftmost) samples once the length exceeds the capacity. -/
def RingBuffer.write (rb : RingBuffer) (data : List ℚ) : RingBuffer :=
  let b := rb.buffer ++ data
  { rb with buffer := b.drop (b.length - rb.capacity) }

/-- `RingBuffer.read`: `None` when fewer than `num_samples` samples are
available, otherwise pop exactly `num_samples` from the left. -/
def RingBuffer.read (rb : RingBuffer) (num_samples : ℕ) :
    RingBuffer × Option (List ℚ) :=
  if rb.buffer.length < num_samples then (rb, none)
  else ({ rb with buffer := rb.buffer.drop num_samples },
        some (rb.buffer.take num_samples))

/-! ## GainSmoother (desktop/src/audio/gain_smoother.py) -/

/-- `GainSmoother` state: the smoothing factor, the noise floor, and the
current gain dict.  The constructor validates `smoothing` and `noise_floor`
to lie in `[0, 1]`, then sets
`current = {"speech": 1.0, "noise": noise_floor, "events": 0.5}`. -/
structure GainSmoother where
  smoothing : ℚ
  noise_floor : ℚ
  current : List (String × ℚ)

/-- `GainSmoother.__init__` after its range validation succeeded. -/
def GainSmoother.init (smoothing noise_floor : ℚ) : GainSmoother :=
  ⟨smoothing, noise_floor, [("speech", 1), ("noise", noise_floor), ("events", 1/2)]⟩

/-- One iteration of the loop body of `GainSmoother.smooth`: exponential
smoothing of a single key, with the `"noise"` key clamped to the floor. -/
def GainSmoother.smoothStep (g : GainSmoother) (cur : List (String × ℚ))
    (kt : String × ℚ) : List (String × ℚ) :=
  let prev := (dictGet kt.1 cur).getD 0
  let s := g.smoothing * prev + (1 - g.smoothing) * kt.2
  let s2 := if kt.1 = "noise" then max s g.noise_floor else s
  dictSet kt.1 s2 cur

/-- `GainSmoother.smooth`: fold the loop body over the target items and
return the updated state together with the returned copy of `current`. -/
def GainSmoother.smooth (g : GainSmoother) (target_gains : List (String × ℚ)) :
    GainSmoother × List (String × ℚ) :=
  let cur := target_gains.foldl g.smoothStep g.current
  ({ g with current := cur }, cur)

/-- A finite sequence of `smooth` calls, discarding the returned copies. -/
def GainSmoother.runSmooth (g : GainSmoother) :
    List (List (String × ℚ)) → GainSmoother
  | [] => g
  | ts :: rest => ((g.smooth ts).1).runSmooth rest

/-! ## SafetyOverride (desktop/src/profiles/safety_override.py)

`time.time()` is passed in as an explicit argument `t`; the alert
notification side effects (`_trigger_alerts`) are UI stubs in the source and
carry no state, so they are not modelled. -/

/-- The `SafetyStatus` enum. -/
inductive SafetyStatus where
  | normal
  | override_active
  | override_fading
deriving DecidableEq

/-- The `SafetyAlert` dataclass. -/
structure SafetyAlert where
  active : Bool
  category : Option String
  confidence : ℚ
  timestamp : ℚ
deriving DecidableEq

/-- Mutable state of a `SafetyOverride` instance. -/
structure SafetyOverrideState where
  enable_alerts : Bool
  status : SafetyStatus
  current_alert : Option SafetyAlert
  override_start_time : Option ℚ
  last_critical_detection_time : Option ℚ
deriving DecidableEq

/-- `SafetyOverride.CRITICAL_CATEGORIES`. -/
def CRITICAL_CATEGORIES : List String := ["siren", "alarm"]

/-- `SafetyOverride.OVERRIDE_THRESHOLD` (0.7). -/
def OVERRIDE_THRESHOLD : ℚ := 7/10

/-- `SafetyOverride.DUCK_AMOUNT` (0.2). -/
def DUCK_AMOUNT : ℚ := 1/5

/-- `SafetyOverride.HOLD_TIME` (5 seconds). -/
def HOLD_TIME : ℚ := 5

/-- `SafetyOverride.__init__`. -/
def SafetyOverrideState.init (enable_alerts : Bool) : SafetyOverrideState :=
  ⟨enable_alerts, SafetyStatus.normal, none, none, none⟩

/-- The `for category in self.CRITICAL_CATEGORIES` loop of
`SafetyOverride.check`: accumulates `active_alert`, `highest_confidence`
and `last_critical_detection_time`. -/
def checkLoop (t : ℚ) (detections : String → ℚ) (last0 : Option ℚ) :
    Option SafetyAlert × ℚ × Option ℚ :=
  CRITICAL_CATEGORIES.foldl
    (fun acc category =>
      let confidence := detections category
      if OVERRIDE_THRESHOLD ≤ confidence then
        let acc2 :=
          if acc.2.1 < confidence then
            ((some ⟨true, some category, confidence, t⟩ : Option SafetyAlert),
             confidence, acc.2.2)
          else acc
        (acc2.1, acc2.2.1, some t)
      else acc)
    (none, 0, last0)

/-- `SafetyOverride.check` at wall-clock time `t`.  Returns the new state
and the returned value; the Python function returns its local
`active_alert`, which is `None` when no critical category qualifies and no
hold window is in progress. -/
def SafetyOverrideState.check (s : SafetyOverrideState) (t : ℚ)
    (detections : String → ℚ) : SafetyOverrideState × Option SafetyAlert :=
  let scan := checkLoop t detections s.last_critical_detection_time
  let lastT := scan.2.2
  match scan.1 with
  | none =>
      match lastT with
      | some t0 =>
          if t - t0 < HOLD_TIME then
            let a : SafetyAlert := ⟨true, none, 1 - (t - t0) / HOLD_TIME, t⟩
            ({ s with status := SafetyStatus.override_fading,
                      current_alert := some a,
                      last_critical_detection_time := lastT }, some a)
          else
            let a : SafetyAlert := ⟨false, none, 0, t⟩
            ({ s with status := SafetyStatus.normal,
                      current_alert := some a,
                      last_critical_detection_time := lastT }, some a)
      | none =>
          ({ s with current_alert := none,
                    last_critical_detection_time := lastT }, none)
  | some a =>
      ({ s with status := SafetyStatus.override_active,
                current_alert := some a,
                override_start_time := some t,
                last_critical_detection_time := lastT }, some a)

/-- `SafetyOverride.is_active`. -/
def SafetyOverrideState.is_active (s : SafetyOverrideState) : Bool :=
  match s.current_alert with
  | none => false
  | some a => a.active

/-- The ducking of one gain entry in `SafetyOverride.apply_override`: every
key other than `"events"` is reduced to `min(value, DUCK_AMOUNT)`.  Python
iterates the dict keys and assigns each one; since dict keys are unique
this equals an entrywise map. -/
def duckEntry (kv : String × ℚ) : String × ℚ :=
  (kv.1, if kv.1 ≠ "events" then min kv.2 DUCK_AMOUNT else kv.2)

/-- `SafetyOverride.apply_override` at wall-clock time `t`.  Calls `check`
a second time (as the source does), and returns `none` for the result on
the path where `check` returned `None` and `alert.active` would raise
`AttributeError`. -/
def SafetyOverrideState.apply_override (s : SafetyOverrideState) (t : ℚ)
    (current_gains : List (String × ℚ)) (detections : String → ℚ) :
    SafetyOverrideState × Option (List (String × ℚ)) :=
  let r := s.check t detections
  match r.2 with
  | none => (r.1, none)
  | some alert =>
      if !alert.active then (r.1, some current_gains)
      else
        match CRITICAL_CATEGORIES.find?
            (fun category => OVERRIDE_THRESHOLD ≤ detections category) with
        | none => (r.1, some current_gains)
        | some critical_sound =>
            let mg :=
              if critical_sound = "siren" ∨ critical_sound = "alarm" then
                dictSet "events" 1 current_gains
              else current_gains
            (r.1, some (mg.map duckEntry))

/-- `SafetyOverride.get_alert_info`: `None` when there is no active alert,
else the `(category, confidence)` payload shown to the UI. -/
def SafetyOverrideState.get_alert_info (s : SafetyOverrideState) :
    Option (Option String × ℚ) :=
  match s.current_alert with
  | none => none
  | some a => if a.active then some (a.category, a.confidence) else none

/-! ## SemanticSuppressor (desktop/src/audio/semantic_suppressor.py)

The classifier and separator are external ML capabilities.  The result of
the single `detector.classify` call made by `suppress` is passed in as data
(`ClassifyResult`), and the separator as an opaque function; the category
mapping loaded from `yamnet_to_waveformer.yaml` and the detective's class
map are parameters.  Audio buffers are modelled as sample lists; every
branch relevant to the claims returns the input object itself, before any
reshaping. -/

/-- One entry of the `yamnet_to_waveformer.yaml` category mapping:
`cat_config.get("safety_override", False)`,
`cat_config.get("waveformer_targets", [])` and the optional
`cat_config.get("detection_threshold", ...)` override. -/
structure CatConfig where
  safety_override : Bool
  waveformer_targets : List String
  detection_threshold : Option ℚ

/-- The parts of a `SemanticDetective.classify` result read by `suppress`:
`detections["smoothed"]` with the `.get(category, 0.0)` default baked in,
and `detections["states"]` with the falsy `.get(category)` default. -/
structure ClassifyResult where
  smoothed : String → ℚ
  states : String → Bool

/-- `SemanticDetective.check_safety_override`
(training/models/semantic_detective.py): true when any class-map category
with `safety_override` set has a truthy post-hysteresis state. -/
def check_safety_override (categories : List (String × Bool))
    (states : String → Bool) : Bool :=
  categories.any (fun c => c.2 && states c.1)

/-- The target-collection loop (step 3) of `SemanticSuppressor.suppress`:
skip unknown categories, skip safety-critical ones, skip categories with no
separator targets, and otherwise admit the targets of every category whose
confidence clears its effective threshold (a negative threshold forces
suppression). -/
def collectTargets (category_map : String → Option CatConfig)
    (smoothed : String → ℚ) (detection_threshold : ℚ)
    (suppress_categories : List String) : List String :=
  suppress_categories.foldl
    (fun acc category =>
      match category_map category with
      | none => acc
      | some cat_config =>
          if cat_config.safety_override then acc
          else if cat_config.waveformer_targets = [] then acc
          else
            let confidence := smoothed category
            let effective_threshold :=
              cat_config.detection_threshold.getD detection_threshold
            if effective_threshold < 0 ∨ effective_threshold ≤ confidence then
              acc ++ cat_config.waveformer_targets
            else acc)
    []

/-- `np.max(np.abs(audio))` for a nonempty sample list. -/
def maxAbs (audio : List ℚ) : ℚ :=
  audio.foldl (fun m x => max m |x|) 0

/-- Result of `suppress` instrumented with whether the separator capability
was invoked. -/
structure SuppressOutcome where
  output : List ℚ
  separatorCalled : Bool
deriving DecidableEq

/-- `SemanticSuppressor.suppress`.  `classifyResult` stands for the value of
the single `self.detector.classify(audio, sample_rate)` call; `separator`
for `self.separator.separate` on the normalized audio (the
`list(set(...))` deduplication is modelled by `eraseDups`; the sample rate
is a fixed ambient parameter of the opaque separator). -/
def suppress (category_map : String → Option CatConfig)
    (detectiveCategories : List (String × Bool))
    (classifyResult : ClassifyResult)
    (separator : List ℚ → List String → List ℚ)
    (audio : List ℚ) (suppress_categories : List String)
    (detection_threshold : ℚ) (safety_check : Bool) (aggressiveness : ℚ) :
    SuppressOutcome :=
  if suppress_categories = [] then ⟨audio, false⟩
  else
    let smoothed_scores := classifyResult.smoothed
    if safety_check && check_safety_override detectiveCategories classifyResult.states then
      ⟨audio, false⟩
    else
      let targets_to_suppress :=
        collectTargets category_map smoothed_scores detection_threshold
          suppress_categories
      if targets_to_suppress = [] then ⟨audio, false⟩
      else
        let max_val := maxAbs audio
        if max_val < 1/100000000 then ⟨audio, false⟩
        else
          let scale_factor := 1 / max_val
          let audio_norm := audio.map (fun x => x * scale_factor)
          let unwanted_norm := separator audio_norm targets_to_suppress.eraseDups
          let unwanted_audio := unwanted_norm.map (fun x => x * (1 / scale_factor))
          let min_len := min audio.length unwanted_audio.length
          let clean_audio :=
            (List.zipWith (fun a u => a - u * aggressiveness)
                (audio.take min_len) (unwanted_audio.take min_len))
              ++ audio.drop min_len
          ⟨clean_audio, true⟩

/-! ## Profile and AutoController (desktop/src/profiles/...) -/

/-- One entry of a profile's `autoTriggers` list:
`trigger.get('category')` and the optional `trigger.get('threshold', 0.5)`. -/
structure AutoTrigger where
  category : String
  threshold : Option ℚ
deriving DecidableEq

/-- `trigger.get('threshold', 0.5)`. -/
def AutoTrigger.effThreshold (tr : AutoTrigger) : ℚ :=
  tr.threshold.getD (1/2)

/-- The `Profile` data class (profile_manager.py); timestamps, description
and schema-version metadata are omitted as no control logic reads them. -/
structure Profile where
  id : String
  name : String
  gains : List (String × ℚ)
  suppressions : List (String × Bool)
  autoTriggers : List AutoTrigger
  isDefault : Bool
  isSystemProfile : Bool
deriving DecidableEq

/-- `ProfileManager.apply_profile`: project a profile's gains onto the three
mixer buses with default 1.0. -/
def applyProfileGains (p : Profile) : List (String × ℚ) :=
  [("speech", (dictGet "speech" p.gains).getD 1),
   ("noise", (dictGet "noise" p.gains).getD 1),
   ("events", (dictGet "events" p.gains).getD 1)]

/-- `AutoController._evaluate_profile_triggers`: the number of satisfied
triggers divided by the number of triggers, capped at 1, and 0 when no
trigger is satisfied (or the profile has none). -/
def evalProfileTriggers (p : Profile) (detections : String → ℚ) : ℚ :=
  if p.autoTriggers = [] then 0
  else
    let matched_triggers :=
      (p.autoTriggers.filter
        (fun tr => tr.effThreshold ≤ detections tr.category)).length
    if 0 < matched_triggers then
      min 1 ((matched_triggers : ℚ) / (p.autoTriggers.length : ℚ))
    else 0

/-- The loop body of `AutoController.evaluate`: skip profiles without auto
triggers, otherwise replace the running best on a strictly higher score. -/
def evalStep (detections : String → ℚ) (acc : Option Profile × ℚ)
    (p : Profile) : Option Profile × ℚ :=
  if p.autoTriggers = [] then acc
  else
    let profile_confidence := evalProfileTriggers p detections
    if acc.2 < profile_confidence then (some p, profile_confidence) else acc

/-- `AutoController.evaluate`: scan all profiles, skipping those without
auto triggers, keeping the profile with the strictly highest
`_evaluate_profile_triggers` score (the first one found on ties). -/
def evaluate (profiles : List Profile) (detections : String → ℚ) :
    Option Profile :=
  (profiles.foldl (evalStep detections) ((none : Option Profile), (0 : ℚ))).1

/-- Modelled from the spec sentence behind claim C5, for comparison with the
source's `_evaluate_profile_triggers`: the sum of the confidences of the
triggers whose detected confidence meets their individual threshold. -/
def specTriggerScore (p : Profile) (detections : String → ℚ) : ℚ :=
  ((p.autoTriggers.filter
      (fun tr => tr.effThreshold ≤ detections tr.category)).map
    (fun tr => detections tr.category)).sum

/-! ## ControlEngine (desktop/src/profiles/control_engine.py)

Only `on_detection_update` is embedded; its auto-mode body (step 2:
`get_recommendation` / `should_switch_profile` / `apply_profile`) is passed
in as an opaque function `autoPhase` returning the new engine state and the
id of any profile it applied, since the claims concern the safety branch
that returns before that code runs.  UI callbacks carry no engine state and
are recorded as trace flags. -/

/-- The `ControlMode` enum. -/
inductive ControlMode where
  | auto
  | manual
deriving DecidableEq

/-- The engine state mutated by `on_detection_update`. -/
structure EngineState where
  mode : ControlMode
  current_profile : Option Profile
  current_gains : List (String × ℚ)
  safety : SafetyOverrideState
  last_detections : String → ℚ

/-- Observable effects of one `on_detection_update` call: whether the
safety branch returned early, whether the auto-mode evaluation ran, the id
of any profile applied via `apply_profile`, and whether a safety alert was
reported to the UI callback. -/
structure UpdateTrace where
  safetyReturn : Bool
  autoEvaluated : Bool
  appliedProfileId : Option String
  alertReported : Bool
deriving DecidableEq

/-- `ControlEngine.on_detection_update` at wall-clock time `t`.  The
`.error` results model the `AttributeError` raised by reading `.active` on
the `None` returned by `SafetyOverride.check`. -/
def on_detection_update
    (autoPhase : EngineState → (String → ℚ) → EngineState × Option String)
    (e : EngineState) (t : ℚ) (detections : String → ℚ) :
    Except String (EngineState × UpdateTrace) :=
  let e1 := { e with last_detections := detections }
  let c := e1.safety.check t detections
  match c.2 with
  | none => Except.error "AttributeError: NoneType has no attribute active"
  | some alert =>
      let e2 := { e1 with safety := c.1 }
      if alert.active then
        let ao := e2.safety.apply_override t e2.current_gains detections
        match ao.2 with
        | none => Except.error "AttributeError: NoneType has no attribute active"
        | some override_gains =>
            let e3 := { e2 with safety := ao.1, current_gains := override_gains }
            Except.ok (e3, ⟨true, false, none, e3.safety.get_alert_info.isSome⟩)
      else
        if e2.mode = ControlMode.auto then
          let ap := autoPhase e2 detections
          Except.ok (ap.1, ⟨false, true, ap.2, false⟩)
        else
          Except.ok (e2, ⟨false, false, none, false⟩)

/-! # Theorems -/

/-! ## Claim C6 — AdaptiveDutyCycle intervals -/

/-- C6 counterexample: the claim says a battery percentage of 20 (in "20 to
50 inclusive") yields the medium interval (8 s), but `get_interval` uses a
strict `battery_percent > 20`, so 20 falls through to the slow interval
(15 s). -/
theorem get_interval_at_twenty :
    AdaptiveDutyCycle.default.get_interval 20 = 15 ∧
    AdaptiveDutyCycle.default.saving = 8 ∧ (15 : ℚ) ≠ 8 := by
  refine ⟨?_, rfl, by norm_num⟩
  simp [AdaptiveDutyCycle.get_interval, AdaptiveDutyCycle.default]

/-- C6 (amended): `get_interval` returns the fast interval when the battery
percentage is above 50, the medium interval when it is above 20 and at most
50, and the slow interval when it is at most 20 (so 20 itself already gets
the slow interval). -/
theorem get_interval_cases (c : AdaptiveDutyCycle) (p : ℤ) :
    (50 < p → c.get_interval p = c.normal) ∧
    (20 < p → p ≤ 50 → c.get_interval p = c.saving) ∧
    (p ≤ 20 → c.get_interval p = c.critical) := by
  unfold AdaptiveDutyCycle.get_interval
  refine ⟨fun h => ?_, fun h1 h2 => ?_, fun h => ?_⟩ <;>
    split_ifs <;> first | rfl | omega

/-- C6 witness: the three interval regimes evaluated at 75, 35 and 20 for
the default instance. -/
theorem get_interval_cases_witness :
    AdaptiveDutyCycle.default.get_interval 75 = 3 ∧
    AdaptiveDutyCycle.default.get_interval 35 = 8 ∧
    AdaptiveDutyCycle.default.get_interval 20 = 15 :=
  ⟨(get_interval_cases AdaptiveDutyCycle.default 75).1 (by decide),
   (get_interval_cases AdaptiveDutyCycle.default 35).2.1 (by decide) (by decide),
   (get_interval_cases AdaptiveDutyCycle.default 20).2.2 (by decide)⟩

/-! ## Claim C8 — RingBuffer FIFO order and no partial reads -/

theorem ringBuffer_write_no_drop (rb : RingBuffer) (data : List ℚ)
    (h : rb.buffer.length + data.length ≤ rb.capacity) :
    rb.write data = ⟨rb.capacity, rb.buffer ++ data⟩ := by
  unfold RingBuffer.write
  have h2 : rb.buffer.length + data.length - rb.capacity = 0 := by omega
  simp [h2]

theorem ringBuffer_foldl_write (ws : List (List ℚ)) :
    ∀ rb : RingBuffer,
      rb.buffer.length + (ws.map List.length).sum ≤ rb.capacity →
      ws.foldl RingBuffer.write rb = ⟨rb.capacity, rb.buffer ++ ws.flatten⟩ := by
  induction ws with
  | nil => intro rb _; simp
  | cons w ws ih =>
      intro rb h
      simp only [List.map_cons, List.sum_cons] at h
      have hw : rb.buffer.length + w.length ≤ rb.capacity := by omega
      have h1 : ws.foldl RingBuffer.write (rb.write w) =
          ⟨rb.capacity, (rb.buffer ++ w) ++ ws.flatten⟩ := by
        rw [ringBuffer_write_no_drop rb w hw]
        exact ih _ (by simp only [List.length_append]; omega)
      simp only [List.foldl_cons, h1, List.flatten_cons, List.append_assoc]

/-- C8: writing any sequence of sample blocks totaling at most the capacity
into a fresh RingBuffer and then reading that total returns exactly the
written samples in write order; and any read requesting more than the
currently available samples returns `None`, never partial data. -/
theorem ringBuffer_fifo_and_unavailable :
    (∀ (capacity : ℕ) (ws : List (List ℚ)),
      (ws.map List.length).sum ≤ capacity →
      ((ws.foldl RingBuffer.write ⟨capacity, []⟩).read
          ((ws.map List.length).sum)).2 = some ws.flatten) ∧
    (∀ (rb : RingBuffer) (n : ℕ),
      rb.buffer.length < n → (rb.read n).2 = none) := by
  constructor
  · intro capacity ws h
    have hfold := ringBuffer_foldl_write ws ⟨capacity, []⟩ (by simpa using h)
    have hlen : ws.flatten.length = (ws.map List.length).sum := by
      simp [List.length_flatten]
    rw [hfold]
    unfold RingBuffer.read
    simp [hlen]
  · intro rb n h
    unfold RingBuffer.read
    simp [h]

/-- C8 witness: two writes `[1,2]` then `[3]` into a capacity-3 buffer read
back as `[1,2,3]`; a read of 2 from a buffer holding 1 sample is `None`. -/
theorem ringBuffer_fifo_witness :
    (([[(1:ℚ), 2], [3]].foldl RingBuffer.write ⟨3, []⟩).read 3).2 =
      some [1, 2, 3] ∧
    ((RingBuffer.mk 2 [5]).read 2).2 = none := by
  constructor
  · have h := ringBuffer_fifo_and_unavailable.1 3 [[(1:ℚ), 2], [3]] (by simp)
    simpa using h
  · exact ringBuffer_fifo_and_unavailable.2 ⟨2, [5]⟩ 2 (by simp)

/-! ## Claim C7 — GainSmoother noise floor invariant -/

/-- The invariant carried through every `smooth` call: the `"noise"` key is
present and its value is at least the floor `f`. -/
def NoiseInv (f : ℚ) (d : List (String × ℚ)) : Prop :=
  ∃ v, dictGet "noise" d = some v ∧ f ≤ v

theorem smoothStep_noiseInv (g : GainSmoother) (cur : List (String × ℚ))
    (kt : String × ℚ) (h : NoiseInv g.noise_floor cur) :
    NoiseInv g.noise_floor (g.smoothStep cur kt) := by
  obtain ⟨v, hv, hle⟩ := h
  unfold GainSmoother.smoothStep
  by_cases hk : kt.1 = "noise"
  · refine ⟨max (g.smoothing * ((dictGet kt.1 cur).getD 0)
        + (1 - g.smoothing) * kt.2) g.noise_floor, ?_, le_max_right _ _⟩
    simp [hk]
  · exact ⟨v, by rw [dictGet_dictSet_ne _ _ _ _ hk]; exact hv, hle⟩

theorem smoothFold_noiseInv (g : GainSmoother) (targets : List (String × ℚ)) :
    ∀ cur : List (String × ℚ), NoiseInv g.noise_floor cur →
      NoiseInv g.noise_floor (targets.foldl g.smoothStep cur) := by
  induction targets with
  | nil => intro cur h; exact h
  | cons kt rest ih =>
      intro cur h
      exact ih _ (smoothStep_noiseInv g cur kt h)

theorem smooth_noise_floor_fields (g : GainSmoother)
    (ts : List (String × ℚ)) :
    (g.smooth ts).1.noise_floor = g.noise_floor ∧
    (g.smooth ts).1.smoothing = g.smoothing := ⟨rfl, rfl⟩

theorem runSmooth_noiseInv (tss : List (List (String × ℚ))) :
    ∀ g : GainSmoother, NoiseInv g.noise_floor g.current →
      (g.runSmooth tss).noise_floor = g.noise_floor ∧
      NoiseInv g.noise_floor (g.runSmooth tss).current := by
  induction tss with
  | nil => intro g h; exact ⟨rfl, h⟩
  | cons ts rest ih =>
      intro g h
      have h1 : NoiseInv g.noise_floor ((g.smooth ts).1).current :=
        smoothFold_noiseInv g ts g.current h
      have h2 := ih ((g.smooth ts).1) h1
      exact ⟨h2.1, h2.2⟩

/-- C7: for every smoother constructed with smoothing factor and noise
floor `f` in `[0,1]`, after any finite sequence of `smooth` calls the
`"noise"` entry of the returned gain dict — and of the stored current
gains — is at least `f`. -/
theorem gainSmoother_noise_floor (smoothing f : ℚ)
    (ha0 : 0 ≤ smoothing) (ha1 : smoothing ≤ 1) (hf0 : 0 ≤ f) (hf1 : f ≤ 1)
    (tss : List (List (String × ℚ))) (ts : List (String × ℚ)) :
    (∃ v, dictGet "noise"
        (((GainSmoother.init smoothing f).runSmooth tss).smooth ts).2 = some v ∧
        f ≤ v) ∧
    (∃ v, dictGet "noise"
        (((GainSmoother.init smoothing f).runSmooth tss).smooth ts).1.current
          = some v ∧ f ≤ v) := by
  have hinit : NoiseInv f (GainSmoother.init smoothing f).current :=
    ⟨f, by simp [GainSmoother.init, dictGet], le_rfl⟩
  have hrun := runSmooth_noiseInv tss (GainSmoother.init smoothing f) hinit
  have hfl : ((GainSmoother.init smoothing f).runSmooth tss).noise_floor = f :=
    hrun.1
  have hfold : NoiseInv f
      (ts.foldl ((GainSmoother.init smoothing f).runSmooth tss).smoothStep
        ((GainSmoother.init smoothing f).runSmooth tss).current) := by
    have := smoothFold_noiseInv ((GainSmoother.init smoothing f).runSmooth tss)
      ts ((GainSmoother.init smoothing f).runSmooth tss).current
      (by rw [hfl]; exact hrun.2)
    rw [hfl] at this
    exact this
  exact ⟨hfold, hfold⟩

/-- C7 witness: the default-style construction (smoothing 1/2, floor 1/2)
after one empty smoothing call keeps the noise entry at or above the
floor. -/
theorem gainSmoother_noise_floor_witness :
    (∃ v, dictGet "noise"
        (((GainSmoother.init (1/2) (1/2)).runSmooth []).smooth []).2 = some v ∧
        (1:ℚ)/2 ≤ v) ∧
    (∃ v, dictGet "noise"
        (((GainSmoother.init (1/2) (1/2)).runSmooth []).smooth []).1.current
          = some v ∧ (1:ℚ)/2 ≤ v) :=
  gainSmoother_noise_floor (1/2) (1/2) one_half_pos.le one_half_lt_one.le
    one_half_pos.le one_half_lt_one.le [] []

/-! ## SafetyOverride lemmas (claims C3, C4, C10) -/

/-- A detection map qualifies when some critical category reaches the
override threshold. -/
def Qualifies (detections : String → ℚ) : Prop :=
  ∃ c ∈ CRITICAL_CATEGORIES, OVERRIDE_THRESHOLD ≤ detections c

instance (detections : String → ℚ) : Decidable (Qualifies detections) := by
  unfold Qualifies; infer_instance

theorem not_qualifies_siren {d : String → ℚ} (h : ¬ Qualifies d) :
    ¬ OVERRIDE_THRESHOLD ≤ d "siren" :=
  fun hc => h ⟨"siren", by simp [CRITICAL_CATEGORIES], hc⟩

theorem not_qualifies_alarm {d : String → ℚ} (h : ¬ Qualifies d) :
    ¬ OVERRIDE_THRESHOLD ≤ d "alarm" :=
  fun hc => h ⟨"alarm", by simp [CRITICAL_CATEGORIES], hc⟩

theorem checkLoop_not_qual (t : ℚ) (d : String → ℚ) (last0 : Option ℚ)
    (h : ¬ Qualifies d) : checkLoop t d last0 = (none, 0, last0) := by
  simp [checkLoop, CRITICAL_CATEGORIES, not_qualifies_siren h,
    not_qualifies_alarm h]

theorem checkLoop_qual (t : ℚ) (d : String → ℚ) (last0 : Option ℚ)
    (h : Qualifies d) :
    (checkLoop t d last0).2.2 = some t ∧
    ∃ cat conf, (checkLoop t d last0).1 = some ⟨true, some cat, conf, t⟩ := by
  by_cases hs : OVERRIDE_THRESHOLD ≤ d "siren"
  · have hs0 : (0:ℚ) < d "siren" :=
      lt_of_lt_of_le (by norm_num [OVERRIDE_THRESHOLD]) hs
    by_cases ha : OVERRIDE_THRESHOLD ≤ d "alarm"
    · by_cases hlt : d "siren" < d "alarm"
      · exact ⟨by simp [checkLoop, CRITICAL_CATEGORIES, hs, ha, hs0, hlt],
          "alarm", d "alarm",
          by simp [checkLoop, CRITICAL_CATEGORIES, hs, ha, hs0, hlt]⟩
      · exact ⟨by simp [checkLoop, CRITICAL_CATEGORIES, hs, ha, hs0, hlt],
          "siren", d "siren",
          by simp [checkLoop, CRITICAL_CATEGORIES, hs, ha, hs0, hlt]⟩
    · exact ⟨by simp [checkLoop, CRITICAL_CATEGORIES, hs, ha, hs0],
        "siren", d "siren",
        by simp [checkLoop, CRITICAL_CATEGORIES, hs, ha, hs0]⟩
  · by_cases ha : OVERRIDE_THRESHOLD ≤ d "alarm"
    · have ha0 : (0:ℚ) < d "alarm" :=
        lt_of_lt_of_le (by norm_num [OVERRIDE_THRESHOLD]) ha
      exact ⟨by simp [checkLoop, CRITICAL_CATEGORIES, hs, ha, ha0],
        "alarm", d "alarm",
        by simp [checkLoop, CRITICAL_CATEGORIES, hs, ha, ha0]⟩
    · rcases h with ⟨c, hc, hthr⟩
      simp [CRITICAL_CATEGORIES] at hc
      rcases hc with rfl | rfl
      · exact absurd hthr hs
      · exact absurd hthr ha

/-- When a qualifying detection arrives, `check` records its time. -/
theorem check_qual_last (s : SafetyOverrideState) (t : ℚ) (d : String → ℚ)
    (h : Qualifies d) :
    ((s.check t d).1).last_critical_detection_time = some t := by
  obtain ⟨h22, cat, conf, h1⟩ :=
    checkLoop_qual t d s.last_critical_detection_time h
  simp [SafetyOverrideState.check, h1, h22]

/-- When a qualifying detection arrives, `check` returns an active alert. -/
theorem check_qual_active (s : SafetyOverrideState) (t : ℚ) (d : String → ℚ)
    (h : Qualifies d) :
    ∃ a : SafetyAlert, (s.check t d).2 = some a ∧ a.active = true := by
  obtain ⟨h22, cat, conf, h1⟩ :=
    checkLoop_qual t d s.last_critical_detection_time h
  exact ⟨⟨true, some cat, conf, t⟩,
    by simp [SafetyOverrideState.check, h1], rfl⟩

/-- A non-qualifying `check` leaves the last critical detection time
unchanged. -/
theorem check_not_qual_last (s : SafetyOverrideState) (t : ℚ)
    (d : String → ℚ) (h : ¬ Qualifies d) :
    ((s.check t d).1).last_critical_detection_time =
      s.last_critical_detection_time := by
  unfold SafetyOverrideState.check
  rw [checkLoop_not_qual t d s.last_critical_detection_time h]
  cases hl : s.last_critical_detection_time with
  | none => simp
  | some t0 => by_cases ht : t - t0 < HOLD_TIME <;> simp [ht]

/-- A non-qualifying `check` inside the hold window: fading alert with
linearly decaying confidence. -/
theorem check_fading (s : SafetyOverrideState) (t t0 : ℚ) (d : String → ℚ)
    (h : ¬ Qualifies d) (hl : s.last_critical_detection_time = some t0)
    (ht : t - t0 < HOLD_TIME) :
    s.check t d =
      ({ s with status := SafetyStatus.override_fading,
                current_alert := some ⟨true, none, 1 - (t - t0) / HOLD_TIME, t⟩,
                last_critical_detection_time := some t0 },
       some ⟨true, none, 1 - (t - t0) / HOLD_TIME, t⟩) := by
  unfold SafetyOverrideState.check
  rw [checkLoop_not_qual t d s.last_critical_detection_time h]
  simp [hl, ht]

/-- A non-qualifying `check` after the hold window expired: inactive
alert. -/
theorem check_expired (s : SafetyOverrideState) (t t0 : ℚ) (d : String → ℚ)
    (h : ¬ Qualifies d) (hl : s.last_critical_detection_time = some t0)
    (ht : ¬ t - t0 < HOLD_TIME) :
    s.check t d =
      ({ s with status := SafetyStatus.normal,
                current_alert := some ⟨false, none, 0, t⟩,
                last_critical_detection_time := some t0 },
       some ⟨false, none, 0, t⟩) := by
  unfold SafetyOverrideState.check
  rw [checkLoop_not_qual t d s.last_critical_detection_time h]
  simp [hl, ht]

/-- A sequence of `check` calls, keeping only the state. -/
def runChecks (s : SafetyOverrideState) (calls : List (ℚ × (String → ℚ))) :
    SafetyOverrideState :=
  calls.foldl (fun st c => (st.check c.1 c.2).1) s

theorem runChecks_last (calls : List (ℚ × (String → ℚ))) :
    ∀ s : SafetyOverrideState, (∀ c ∈ calls, ¬ Qualifies c.2) →
      (runChecks s calls).last_critical_detection_time =
        s.last_critical_detection_time := by
  induction calls with
  | nil => intro s _; rfl
  | cons c rest ih =>
      intro s h
      have h1 := check_not_qual_last s c.1 c.2 (h c (by simp))
      have h2 := ih ((s.check c.1 c.2).1) (fun c2 hc2 => h c2 (by simp [hc2]))
      calc (runChecks s (c :: rest)).last_critical_detection_time
          = (runChecks ((s.check c.1 c.2).1) rest).last_critical_detection_time := rfl
        _ = s.last_critical_detection_time := by rw [h2, h1]

/-! ## Claim C4 — SafetyOverride hold time -/

/-- C4: after a single qualifying detection at time 0 and any sequence of
later non-qualifying checks, a check at time `t` reports an active alert
with confidence decaying as `1 - t / HOLD_TIME` for all `t` strictly below
the hold time, and an inactive alert for all `t` at or beyond it; in both
cases `is_active` reflects exactly `t < HOLD_TIME`. -/
theorem safetyOverride_hold_time (d0 : String → ℚ) (hq : Qualifies d0)
    (mids : List (ℚ × (String → ℚ))) (hm : ∀ c ∈ mids, ¬ Qualifies c.2)
    (t : ℚ) (ht : 0 ≤ t) (d : String → ℚ) (hd : ¬ Qualifies d) :
    let s1 := ((SafetyOverrideState.init true).check 0 d0).1
    let s2 := runChecks s1 mids
    ((s2.check t d).1.is_active = decide (t < HOLD_TIME)) ∧
    (t < HOLD_TIME →
      (s2.check t d).2 = some ⟨true, none, 1 - t / HOLD_TIME, t⟩) ∧
    (HOLD_TIME ≤ t → (s2.check t d).2 = some ⟨false, none, 0, t⟩) := by
  intro s1 s2
  have hs1 : s1.last_critical_detection_time = some 0 :=
    check_qual_last (SafetyOverrideState.init true) 0 d0 hq
  have hs2 : s2.last_critical_detection_time = some 0 := by
    have := runChecks_last mids s1 hm
    rw [this, hs1]
  by_cases hT : t < HOLD_TIME
  · have hfade := check_fading s2 t 0 d hd hs2 (by simpa using hT)
    refine ⟨?_, fun _ => ?_, fun hge => absurd hT (not_lt.mpr hge)⟩
    · rw [hfade]
      simp [SafetyOverrideState.is_active, hT]
    · rw [hfade]
      simp
  · have hexp := check_expired s2 t 0 d hd hs2 (by simpa using hT)
    refine ⟨?_, fun hlt => absurd hlt hT, fun _ => ?_⟩
    · rw [hexp]
      simp [SafetyOverrideState.is_active, hT]
    · rw [hexp]

/-- C4 witness: a siren at confidence 4/5 at time 0, then a silent check at
time 6 (past the 5-second hold): the override is no longer active. -/
theorem safetyOverride_hold_time_witness :
    let d0 : String → ℚ := fun c => if c = "siren" then 4/5 else 0
    let s1 := ((SafetyOverrideState.init true).check 0 d0).1
    let s2 := runChecks s1 []
    ((s2.check 6 (fun _ => 0)).1.is_active = decide ((6:ℚ) < HOLD_TIME)) ∧
    ((6:ℚ) < HOLD_TIME →
      (s2.check 6 (fun _ => 0)).2 = some ⟨true, none, 1 - 6 / HOLD_TIME, 6⟩) ∧
    (HOLD_TIME ≤ (6:ℚ) →
      (s2.check 6 (fun _ => 0)).2 = some ⟨false, none, 0, 6⟩) :=
  safetyOverride_hold_time (fun c => if c = "siren" then 4/5 else 0)
    ⟨"siren", by simp [CRITICAL_CATEGORIES], by norm_num [OVERRIDE_THRESHOLD]⟩
    [] (by simp) 6 (by norm_num) (fun _ => 0)
    (fun ⟨c, _, hc⟩ => absurd hc (by norm_num [OVERRIDE_THRESHOLD]))

/-! ## Claim C10 — fresh check returns None and the engine crashes on it -/

/-- A non-qualifying `check` on a state that never saw a critical
detection returns `None`. -/
theorem check_fresh (s : SafetyOverrideState) (t : ℚ) (d : String → ℚ)
    (h : ¬ Qualifies d) (hl : s.last_critical_detection_time = none) :
    s.check t d = ({ s with current_alert := none }, none) := by
  unfold SafetyOverrideState.check
  rw [checkLoop_not_qual t d s.last_critical_detection_time h]
  simp [hl]

/-- C10: before any critical category has ever qualified, a `check` whose
detections keep every critical category below the threshold returns `None`
(not an inactive alert), and `ControlEngine.on_detection_update` — which
reads `.active` on that value — raises on such detections. -/
theorem fresh_check_none_crashes_engine (b : Bool) (t : ℚ)
    (d : String → ℚ) (hd : ¬ Qualifies d)
    (autoPhase : EngineState → (String → ℚ) → EngineState × Option String)
    (e : EngineState) (he : e.safety = SafetyOverrideState.init b) :
    (e.safety.check t d).2 = none ∧
    on_detection_update autoPhase e t d =
      Except.error "AttributeError: NoneType has no attribute active" := by
  have hc : (e.safety.check t d).2 = none := by
    rw [check_fresh e.safety t d hd (by rw [he]; rfl)]
  refine ⟨hc, ?_⟩
  unfold on_detection_update
  simp [hc]

/-- C10 witness: a fresh engine receiving detections with every category at
confidence 0 (so no critical category at threshold) hits the
`AttributeError` path. -/
theorem fresh_check_none_crashes_engine_witness :
    let e : EngineState := ⟨ControlMode.manual, none, [],
      SafetyOverrideState.init true, fun _ => 0⟩
    (e.safety.check 0 (fun _ => 0)).2 = none ∧
    on_detection_update (fun e2 _ => (e2, none)) e 0 (fun _ => 0) =
      Except.error "AttributeError: NoneType has no attribute active" :=
  fresh_check_none_crashes_engine true 0 (fun _ => 0)
    (fun ⟨_, _, hthr⟩ => absurd hthr (by norm_num [OVERRIDE_THRESHOLD]))
    (fun e2 _ => (e2, none)) _ rfl

/-! ## Claim C3 — apply_override gains -/

theorem dictGet_map_duck (k : String) (l : List (String × ℚ)) :
    dictGet k (l.map duckEntry) =
      (dictGet k l).map
        (fun v => if k ≠ "events" then min v DUCK_AMOUNT else v) := by
  induction l with
  | nil => rfl
  | cons kv rest ih =>
      by_cases hk : kv.1 = k
      · simp [dictGet, duckEntry, hk]
      · simp [dictGet, duckEntry, hk, ih]

theorem find_critical (d : String → ℚ) (h : Qualifies d) :
    ∃ cs, CRITICAL_CATEGORIES.find?
        (fun c => OVERRIDE_THRESHOLD ≤ d c) = some cs ∧
      (cs = "siren" ∨ cs = "alarm") := by
  by_cases hs : OVERRIDE_THRESHOLD ≤ d "siren"
  · exact ⟨"siren", by simp [CRITICAL_CATEGORIES, List.find?_cons, hs],
      Or.inl rfl⟩
  · by_cases ha : OVERRIDE_THRESHOLD ≤ d "alarm"
    · exact ⟨"alarm", by simp [CRITICAL_CATEGORIES, List.find?_cons, hs, ha],
        Or.inr rfl⟩
    · rcases h with ⟨c, hc, hthr⟩
      simp [CRITICAL_CATEGORIES] at hc
      rcases hc with rfl | rfl
      exacts [absurd hthr hs, absurd hthr ha]

/-- C3 (amended): whenever the override is activated by a critical category
whose confidence is at or above the threshold, `apply_override` returns
gains in which the `"events"` bus equals 1.0 and every other bus equals the
minimum of its current input value and the duck amount 0.2 — a cap at 0.2,
not the fraction 0.2 of the current value. -/
theorem apply_override_duck (s : SafetyOverrideState) (t : ℚ)
    (current_gains : List (String × ℚ)) (d : String → ℚ)
    (h : Qualifies d) :
    (s.apply_override t current_gains d).2 =
      some ((dictSet "events" 1 current_gains).map duckEntry) ∧
    dictGet "events" ((dictSet "events" 1 current_gains).map duckEntry) =
      some 1 ∧
    ∀ k v, k ≠ "events" → dictGet k current_gains = some v →
      dictGet k ((dictSet "events" 1 current_gains).map duckEntry) =
        some (min v DUCK_AMOUNT) := by
  obtain ⟨a, ha, hact⟩ := check_qual_active s t d h
  obtain ⟨cs, hcs, hor⟩ := find_critical d h
  refine ⟨?_, ?_, ?_⟩
  · unfold SafetyOverrideState.apply_override
    simp [ha, hact, hcs, if_pos hor]
  · rw [dictGet_map_duck]
    simp
  · intro k v hk hv
    rw [dictGet_map_duck]
    rw [dictGet_dictSet_ne "events" k 1 current_gains (Ne.symm hk)]
    simp [hv, hk]

/-- C3 counterexample: with current gains speech 1/10, noise 0, events 3/10
and a siren at confidence 4/5, the code returns the speech bus unchanged at
1/10 (the minimum of 1/10 and 0.2), whereas the claimed fixed fraction
"0.2 of its current value" would be 1/50. -/
theorem apply_override_counterexample :
    ((SafetyOverrideState.init true).apply_override 0
        [("speech", 1/10), ("noise", 0), ("events", 3/10)]
        (fun c => if c = "siren" then 4/5 else 0)).2 =
      some [("speech", 1/10), ("noise", 0), ("events", 1)] ∧
    ((1:ℚ)/10 ≠ (1/5) * (1/10)) := by
  constructor
  · have hq : Qualifies (fun c => if c = "siren" then 4/5 else 0) :=
      ⟨"siren", by simp [CRITICAL_CATEGORIES],
        by norm_num [OVERRIDE_THRESHOLD]⟩
    obtain ⟨a, ha, hact⟩ :=
      check_qual_active (SafetyOverrideState.init true) 0
        (fun c => if c = "siren" then 4/5 else 0) hq
    obtain ⟨cs, hcs, hor⟩ :=
      find_critical (fun c => if c = "siren" then 4/5 else 0) hq
    unfold SafetyOverrideState.apply_override
    simp [ha, hact, hcs, if_pos hor]
    simp [dictSet, duckEntry, DUCK_AMOUNT]
    norm_num [min_def]
  · norm_num

/-- C3 witness: the amended statement evaluated at pass-through gains and a
siren at confidence 9/10. -/
theorem apply_override_duck_witness :
    ((SafetyOverrideState.init false).apply_override 0
        [("speech", 1), ("noise", 1), ("events", 1)]
        (fun c => if c = "siren" then 9/10 else 0)).2 =
      some ((dictSet "events" 1
        [("speech", 1), ("noise", 1), ("events", 1)]).map duckEntry) ∧
    dictGet "events" ((dictSet "events" 1
        [("speech", 1), ("noise", 1), ("events", 1)]).map duckEntry) =
      some 1 ∧
    dictGet "speech" ((dictSet "events" 1
        [("speech", 1), ("noise", 1), ("events", 1)]).map duckEntry) =
      some (min 1 DUCK_AMOUNT) := by
  have h := apply_override_duck (SafetyOverrideState.init false) 0
    [("speech", 1), ("noise", 1), ("events", 1)]
    (fun c => if c = "siren" then 9/10 else 0)
    ⟨"siren", by simp [CRITICAL_CATEGORIES], by norm_num [OVERRIDE_THRESHOLD]⟩
  exact ⟨h.1, h.2.1,
    h.2.2 "speech" 1 (by decide) (by simp [dictGet])⟩

/-! ## Claim C1 — safety override bypasses suppression -/

/-- C1: for every audio buffer, classifier outcome, requested suppression
list, threshold and aggressiveness, if `safety_check` is true and the
post-hysteresis states mark at least one safety-override category as
active, `suppress` returns the input audio unchanged (and never calls the
separator). -/
theorem suppress_safety_override_bypass
    (category_map : String → Option CatConfig)
    (detectiveCategories : List (String × Bool))
    (classifyResult : ClassifyResult)
    (separator : List ℚ → List String → List ℚ)
    (audio : List ℚ) (suppress_categories : List String)
    (detection_threshold aggressiveness : ℚ)
    (hs : check_safety_override detectiveCategories classifyResult.states
      = true) :
    suppress category_map detectiveCategories classifyResult separator
      audio suppress_categories detection_threshold true aggressiveness =
      ⟨audio, false⟩ := by
  unfold suppress
  by_cases hempty : suppress_categories = []
  · simp [hempty]
  · simp [hempty, hs]

/-- C1 witness: a detective with a safety-critical `"siren"` whose state is
active forces pass-through even though `"typing"` suppression was
requested. -/
theorem suppress_safety_override_bypass_witness :
    suppress
      (fun c => if c = "typing" then
        some ⟨false, ["Computer_keyboard"], none⟩ else none)
      [("siren", true)]
      ⟨fun c => if c = "typing" then 4/5 else 0, fun c => c = "siren"⟩
      (fun a _ => a) [1, 1/2] ["typing"] (1/2) true 1 =
      ⟨[1, 1/2], false⟩ :=
  suppress_safety_override_bypass
    (fun c => if c = "typing" then
      some ⟨false, ["Computer_keyboard"], none⟩ else none)
    [("siren", true)]
    ⟨fun c => if c = "typing" then 4/5 else 0, fun c => c = "siren"⟩
    (fun a _ => a) [1, 1/2] ["typing"] (1/2) 1
    (by simp [check_safety_override])

/-! ## Claim C9 — near-silent input skips the separator -/

theorem maxAbs_fold_lt (c : ℚ) (xs : List ℚ) :
    ∀ m : ℚ, m < c → (∀ x ∈ xs, |x| < c) →
      xs.foldl (fun m2 x => max m2 |x|) m < c := by
  induction xs with
  | nil => intro m hm _; exact hm
  | cons x rest ih =>
      intro m hm h
      exact ih (max m |x|)
        (max_lt hm (h x (by simp)))
        (fun y hy => h y (by simp [hy]))

theorem maxAbs_lt (c : ℚ) (xs : List ℚ) (hc : 0 < c)
    (h : ∀ x ∈ xs, |x| < c) : maxAbs xs < c :=
  maxAbs_fold_lt c xs 0 hc h

/-- C9: for every nonempty input whose peak absolute amplitude is below
`1e-8`, `suppress` returns the input unchanged and never invokes the
separator, whatever categories, thresholds and flags are supplied. -/
theorem suppress_silence_skips_separator
    (category_map : String → Option CatConfig)
    (detectiveCategories : List (String × Bool))
    (classifyResult : ClassifyResult)
    (separator : List ℚ → List String → List ℚ)
    (audio : List ℚ) (suppress_categories : List String)
    (detection_threshold aggressiveness : ℚ) (safety_check : Bool)
    (hne : audio ≠ [])
    (hq : ∀ x ∈ audio, |x| < 1/100000000) :
    suppress category_map detectiveCategories classifyResult separator
      audio suppress_categories detection_threshold safety_check
      aggressiveness = ⟨audio, false⟩ := by
  have hmax : maxAbs audio < 1/100000000 :=
    maxAbs_lt _ audio (by norm_num) hq
  have hmax2 : maxAbs audio < (100000000 : ℚ)⁻¹ := by
    rw [← one_div]; exact hmax
  unfold suppress
  split_ifs <;> first | rfl | simp [hmax, hmax2]

/-- C9 witness: audio `[0, 1/200000000]` with a requested `"typing"`
category whose confidence 4/5 clears the 1/2 threshold and maps to a
separator target — the separator is still skipped. -/
theorem suppress_silence_skips_separator_witness :
    suppress
      (fun c => if c = "typing" then
        some ⟨false, ["Computer_keyboard"], none⟩ else none)
      [("siren", true)]
      ⟨fun c => if c = "typing" then 4/5 else 0, fun _ => false⟩
      (fun a _ => a) [0, 1/200000000] ["typing"] (1/2) true 1 =
      ⟨[0, 1/200000000], false⟩ :=
  suppress_silence_skips_separator
    (fun c => if c = "typing" then
      some ⟨false, ["Computer_keyboard"], none⟩ else none)
    [("siren", true)]
    ⟨fun c => if c = "typing" then 4/5 else 0, fun _ => false⟩
    (fun a _ => a) [0, 1/200000000] ["typing"] (1/2) 1 true
    (by simp)
    (by
      intro x hx
      simp at hx
      rcases hx with rfl | rfl <;>
        rw [abs_of_nonneg (by norm_num)] <;> norm_num)

/-! ## Claim C2 — safety branch of on_detection_update -/

/-- C2: evaluation of the safety branch at a concrete failing input.  With
the engine on the "Focus Mode" profile and a siren at confidence 17/20, the
code applies override gains (events forced to 1, others capped at 1/5),
reports the alert and skips auto evaluation — but the current profile stays
"Focus Mode": no switch to a built-in pass-through profile happens and no
prior profile is remembered anywhere in the state. -/
theorem on_detection_update_keeps_profile :
    ∃ result : EngineState × UpdateTrace,
      on_detection_update (fun e _ => (e, none))
        ⟨ControlMode.manual,
         some ⟨"focus", "Focus Mode",
           [("speech", 3/10), ("noise", 0), ("events", 1/5)],
           [("typing", true), ("wind", true)],
           [⟨"typing", some (3/5)⟩], false, true⟩,
         [("speech", 1), ("noise", 1), ("events", 1)],
         SafetyOverrideState.init true, fun _ => 0⟩
        0 (fun c => if c = "siren" then 17/20 else 0) = Except.ok result ∧
      result.1.current_profile =
        some ⟨"focus", "Focus Mode",
          [("speech", 3/10), ("noise", 0), ("events", 1/5)],
          [("typing", true), ("wind", true)],
          [⟨"typing", some (3/5)⟩], false, true⟩ ∧
      result.2 = ⟨true, false, none, true⟩ ∧
      result.1.current_gains =
        [("speech", 1/5), ("noise", 1/5), ("events", 1)] := by
  have hA : ∀ s : SafetyOverrideState,
      s.check 0 (fun c => if c = "siren" then 17/20 else 0) =
      ({ s with status := SafetyStatus.override_active,
                current_alert := some ⟨true, some "siren", 17/20, 0⟩,
                override_start_time := some 0,
                last_critical_detection_time := some 0 },
       some ⟨true, some "siren", 17/20, 0⟩) := by
    intro s
    simp only [SafetyOverrideState.check, checkLoop, CRITICAL_CATEGORIES,
      List.foldl, OVERRIDE_THRESHOLD]
    simp [(show ((7:ℚ)/10 ≤ 17/20) from by norm_num),
      (show ¬ ((7:ℚ)/10 ≤ 0) from by norm_num),
      (show ((0:ℚ) < 17/20) from by norm_num),
      (show ¬ ((17:ℚ)/20 < 0) from by norm_num)]
  have hAO : ∀ s : SafetyOverrideState,
      s.apply_override 0 [("speech", 1), ("noise", 1), ("events", 1)]
        (fun c => if c = "siren" then 17/20 else 0) =
      ({ s with status := SafetyStatus.override_active,
                current_alert := some ⟨true, some "siren", 17/20, 0⟩,
                override_start_time := some 0,
                last_critical_detection_time := some 0 },
       some [("speech", 1/5), ("noise", 1/5), ("events", 1)]) := by
    intro s
    unfold SafetyOverrideState.apply_override
    rw [hA s]
    simp only [CRITICAL_CATEGORIES, List.find?_cons, OVERRIDE_THRESHOLD]
    simp [(show ((7:ℚ)/10 ≤ 17/20) from by norm_num), dictSet, duckEntry,
      DUCK_AMOUNT, (show min (1:ℚ) (1/5) = 1/5 from by norm_num)]
    norm_num
  refine ⟨(⟨ControlMode.manual,
      some ⟨"focus", "Focus Mode",
        [("speech", 3/10), ("noise", 0), ("events", 1/5)],
        [("typing", true), ("wind", true)],
        [⟨"typing", some (3/5)⟩], false, true⟩,
      [("speech", 1/5), ("noise", 1/5), ("events", 1)],
      ⟨true, SafetyStatus.override_active,
        some ⟨true, some "siren", 17/20, 0⟩, some 0, some 0⟩,
      fun c => if c = "siren" then 17/20 else 0⟩,
      ⟨true, false, none, true⟩), ?_, rfl, rfl, rfl⟩
  unfold on_detection_update
  simp [hA, hAO, SafetyOverrideState.get_alert_info, SafetyOverrideState.init]

/-! ## Claim C5 — AutoController recommendation -/

/-- The largest `_evaluate_profile_triggers` score over a profile list
(0 for the empty list). -/
def maxScore (detections : String → ℚ) (profiles : List Profile) : ℚ :=
  profiles.foldr (fun p m => max (evalProfileTriggers p detections) m) 0

theorem score_nonneg (p : Profile) (d : String → ℚ) :
    0 ≤ evalProfileTriggers p d := by
  unfold evalProfileTriggers
  split_ifs <;> first | exact le_rfl | positivity

theorem evalStep_eq (d : String → ℚ) (acc : Option Profile × ℚ) (p : Profile)
    (hm : 0 ≤ acc.2) :
    evalStep d acc p =
      if acc.2 < evalProfileTriggers p d
      then (some p, evalProfileTriggers p d) else acc := by
  unfold evalStep
  by_cases he : p.autoTriggers = []
  · have h0 : evalProfileTriggers p d = 0 := by simp [evalProfileTriggers, he]
    rw [if_pos he, h0, if_neg (not_lt.mpr hm)]
  · rw [if_neg he]

theorem evalFold_char (d : String → ℚ) (ps : List Profile) :
    ∀ (b : Option Profile) (m : ℚ), 0 ≤ m →
      ps.foldl (evalStep d) (b, m) =
        (if m < maxScore d ps then
           ps.find? (fun q => evalProfileTriggers q d = maxScore d ps)
         else b,
         max m (maxScore d ps)) := by
  induction ps with
  | nil =>
      intro b m hm
      simp [maxScore, max_eq_left hm, not_lt.mpr hm]
  | cons p ps ih =>
      intro b m hm
      have hs := score_nonneg p d
      have hMc : maxScore d (p :: ps) =
          max (evalProfileTriggers p d) (maxScore d ps) := rfl
      rw [List.foldl_cons, evalStep_eq d (b, m) p hm]
      by_cases hc : m < evalProfileTriggers p d
      · rw [if_pos hc, ih (some p) _ hs]
        by_cases hc2 : evalProfileTriggers p d < maxScore d ps
        · have h1 : max (evalProfileTriggers p d) (maxScore d ps) =
              maxScore d ps := max_eq_right hc2.le
          have hff2 : ¬ (evalProfileTriggers p d = maxScore d ps) :=
            ne_of_lt hc2
          rw [if_pos hc2, hMc, h1, if_pos (hc.trans hc2),
            List.find?_cons_of_neg _ (by simpa using hff2),
            max_eq_right (hc.trans hc2).le]
        · have h1 : max (evalProfileTriggers p d) (maxScore d ps) =
              evalProfileTriggers p d := max_eq_left (not_lt.mp hc2)
          rw [if_neg hc2, hMc, h1, if_pos hc,
            List.find?_cons_of_pos _ (by simp),
            max_eq_right hc.le]
      · have hpm : evalProfileTriggers p d ≤ m := not_lt.mp hc
        rw [if_neg hc, ih b m hm]
        by_cases hmp : m < maxScore d ps
        · have h1 : max (evalProfileTriggers p d) (maxScore d ps) =
              maxScore d ps := max_eq_right (hpm.trans hmp.le)
          have hff2 : ¬ (evalProfileTriggers p d = maxScore d ps) :=
            ne_of_lt (lt_of_le_of_lt hpm hmp)
          rw [hMc, h1, List.find?_cons_of_neg _ (by simpa using hff2)]
        · have hle : maxScore d ps ≤ m := not_lt.mp hmp
          have h2 : ¬ m < maxScore d (p :: ps) := by
            rw [hMc]
            exact not_lt.mpr (max_le hpm hle)
          rw [if_neg hmp, if_neg h2, hMc,
            max_eq_left hle, max_eq_left (max_le hpm hle)]

/-- C5 (amended): `AutoController.evaluate` assigns each profile the ratio
score `min(1, matched/total)` computed by `_evaluate_profile_triggers`
(not the sum of trigger confidences), and recommends the first profile in
input order attaining the strictly highest positive score (`None` when no
profile scores above 0). -/
theorem evaluate_first_highest (profiles : List Profile)
    (d : String → ℚ) :
    evaluate profiles d =
      if 0 < maxScore d profiles then
        profiles.find?
          (fun q => evalProfileTriggers q d = maxScore d profiles)
      else none := by
  unfold evaluate
  rw [evalFold_char d profiles none 0 le_rfl]

/-- The first profile of the C5 counterexample: one auto trigger on
category `"a"` with threshold 1/2. -/
def exProfileOne : Profile :=
  ⟨"p1", "P1", [], [], [⟨"a", some (1/2)⟩], false, false⟩

/-- The second profile of the C5 counterexample: two auto triggers on
categories `"b"` and `"c"`, each with threshold 1/2. -/
def exProfileTwo : Profile :=
  ⟨"p2", "P2", [], [], [⟨"b", some (1/2)⟩, ⟨"c", some (1/2)⟩], false, false⟩

/-- The detections of the C5 counterexample. -/
def exDetections : String → ℚ :=
  fun c => if c = "a" then 3/5
    else if c = "b" then 9/10 else if c = "c" then 9/10 else 0

/-- C5 counterexample: under the claim, P1 scores 3/5 (sum of its one
triggered confidence) and P2 scores 9/5, strictly highest, so P2 would be
recommended; the code instead assigns P1 the ratio score 1 and recommends
P1. -/
theorem evaluate_counterexample :
    evaluate [exProfileOne, exProfileTwo] exDetections = some exProfileOne ∧
    specTriggerScore exProfileOne exDetections = 3/5 ∧
    specTriggerScore exProfileTwo exDetections = 9/5 ∧
    evalProfileTriggers exProfileOne exDetections = 1 ∧
    ((3:ℚ)/5 < 9/5) ∧
    exProfileOne ≠ exProfileTwo := by
  have hs1 : evalProfileTriggers exProfileOne exDetections = 1 := by
    simp [evalProfileTriggers, exProfileOne, exDetections,
      AutoTrigger.effThreshold, List.filter,
      (show ((2:ℚ)⁻¹ ≤ 3/5) from by norm_num)]
  have hs2 : evalProfileTriggers exProfileTwo exDetections = 1 := by
    simp [evalProfileTriggers, exProfileTwo, exDetections,
      AutoTrigger.effThreshold, List.filter,
      (show ((2:ℚ)⁻¹ ≤ 9/10) from by norm_num)]
  refine ⟨?_, ?_, ?_, hs1, by norm_num, ?_⟩
  · simp [evaluate, evalStep, hs1, hs2,
      (show exProfileOne.autoTriggers = [⟨"a", some (1/2)⟩] from rfl),
      (show exProfileTwo.autoTriggers =
        [⟨"b", some (1/2)⟩, ⟨"c", some (1/2)⟩] from rfl)]
  · simp [specTriggerScore, exProfileOne, exDetections,
      AutoTrigger.effThreshold, List.filter,
      (show ((2:ℚ)⁻¹ ≤ 3/5) from by norm_num)]
  · simp [specTriggerScore, exProfileTwo, exDetections,
      AutoTrigger.effThreshold, List.filter,
      (show ((2:ℚ)⁻¹ ≤ 9/10) from by norm_num)]
    norm_num
  · simp [exProfileOne, exProfileTwo]

end SemanticMixer
